import Mathlib

/-!
Verification of the agentos component-management framework against its
natural-language specification.  The definitions below are a shallow
embedding of the Python sources under `agentos/` (chiefly
`parameter_set.py`, `component.py`, `registry.py`, `run_command.py`,
`repo.py`).  Python dicts are embedded as insertion-ordered association
lists with string keys; fallible Python code returns `Except`; the
unbounded recursion of `Component._get_instance` is given an explicit
fuel parameter so that divergence is observable as fuel exhaustion.
-/

/-! ## Python dictionaries as insertion-ordered association lists -/

/-- A Python `dict` with string keys, embedded as an association list in
insertion order.  Keys are unique in any dict built by the operations
below. -/
abbrev Dict (α : Type) := List (String × α)

/-- Embeds `d.get(k)` / `d[k]`-style lookup: first entry whose key equals
`k`. -/
def dictGet {α : Type} : Dict α → String → Option α
  | [], _ => none
  | (k', v) :: rest, k => if k' = k then some v else dictGet rest k

/-- Embeds `d[k] = v`: replace the value in place when the key is
present, otherwise append the new entry (Python dicts keep insertion
order and update in place). -/
def dictSet {α : Type} : Dict α → String → α → Dict α
  | [], k, v => [(k, v)]
  | (k', v') :: rest, k, v =>
    if k' = k then (k, v) :: rest else (k', v') :: dictSet rest k v

/-- Embeds Python `d.update(other)`: fold `d[k] = v` over the entries of
`other` in order. -/
def dictUpdate {α : Type} (d other : Dict α) : Dict α :=
  other.foldl (fun acc kv => dictSet acc kv.1 kv.2) d

/-! ## YAML-style scalar values for parameter dictionaries -/

/-- Scalar values that occur in parameter dictionaries and spec
properties.  The code never inspects these values, so a small closed
universe of scalars suffices. -/
inductive Val where
  | vInt : Int → Val
  | vStr : String → Val
  | vBool : Bool → Val
  | vNone : Val
deriving DecidableEq, Repr

/-! ## ParameterSet (`agentos/parameter_set.py`) -/

/-- Innermost parameter dictionary: parameter name to value. -/
abbrev ParamDict := Dict Val

/-- The `_parameters` attribute of a `ParameterSet`.  The constructor
reads `self._parameters = Map(parameters) if parameters else Map`: when
the argument is falsy (absent or an empty mapping) the attribute is
bound to the `immutables.Map` *class object* rather than to an empty
`Map` instance.  The constructor `mapClass` embeds that class object;
`map m` embeds a real `Map` instance holding `m`. -/
inductive ParameterSet where
  | mapClass : ParameterSet
  | map : Dict (Dict ParamDict) → ParameterSet
deriving DecidableEq, Repr

namespace ParameterSet

/-- Embeds `ParameterSet.__init__`: `Map(parameters) if parameters else
Map`.  A `none` argument embeds `parameters=None`; an empty dict is
falsy in Python, so both land on the `Map` class object. -/
def init (parameters : Option (Dict (Dict ParamDict))) : ParameterSet :=
  match parameters with
  | some p => if p.isEmpty then ParameterSet.mapClass else ParameterSet.map p
  | none => ParameterSet.mapClass

/-- Embeds `ParameterSet.__eq__`: `if isinstance(other, self.__class__):
return True`.  Both operands here are ParameterSet objects, so the
isinstance branch is taken and the method returns True without ever
reading `_parameters`. -/
def py_eq (_self _other : ParameterSet) : Bool := true

/-- Embeds `ParameterSet.get_component_params`:
`self._parameters.get(component_name, {})`.  When `_parameters` is the
`Map` class object, attribute lookup yields the unbound descriptor
`Map.get` and calling it with a string as `self` raises a `TypeError`. -/
def get_component_params (ps : ParameterSet) (component_name : String) :
    Except String (Dict ParamDict) :=
  match ps with
  | ParameterSet.mapClass =>
    Except.error
      ("TypeError: descriptor get for immutables.Map objects does not apply to a str object; _parameters is the Map class, not an instance")
  | ParameterSet.map m => Except.ok ((dictGet m component_name).getD [])

/-- Embeds `ParameterSet.get_function_params`: fetch the component
params, then `component_params.get(function_name, {})`; the final
`fn_params if fn_params else {}` maps a falsy (empty) dict to `{}`,
which is the same value in this embedding. -/
def get_function_params (ps : ParameterSet) (component_name function_name : String) :
    Except String ParamDict := do
  let component_params ← ps.get_component_params component_name
  let fn_params := (dictGet component_params function_name).getD []
  return fn_params

/-- Embeds `ParameterSet.update`.  The Python method returns `None` and
reassigns `self._parameters`; state passing makes that explicit: the
result is the new state of the same object.  On the `Map` class object
the first `.get` call raises, as in `get_component_params`. -/
def update (ps : ParameterSet) (component_name fn_name : String) (params : ParamDict) :
    Except String ParameterSet :=
  match ps with
  | ParameterSet.mapClass =>
    Except.error
      ("TypeError: descriptor get for immutables.Map objects does not apply to a str object; _parameters is the Map class, not an instance")
  | ParameterSet.map m =>
    let component_params := (dictGet m component_name).getD []
    let fn_params := (dictGet component_params fn_name).getD []
    let fn_params := dictUpdate fn_params params
    let component_params := dictSet component_params fn_name fn_params
    Except.ok (ParameterSet.map (dictSet m component_name component_params))

end ParameterSet

/-! ## ComponentIdentifier

The module `agentos/identifiers.py` is imported throughout the sources
but is not present under `src/`, so the identifier type is modelled from
the specification. -/

/-- Modelled from the spec: `agentos/identifiers.py` (class
`ComponentIdentifier`) is missing from the sources.  The spec says an
Identifier is a `(name, optional version)` pair whose canonical string
form is `name` or `name==version`, equal iff both fields match exactly. -/
structure ComponentIdentifier where
  name : String
  version : Option String
deriving DecidableEq, Repr

namespace ComponentIdentifier

/-- Modelled from the spec: canonical string form `name` or
`name==version` (the `.full` attribute used by `RunCommand.__hash__`). -/
def full (i : ComponentIdentifier) : String :=
  match i.version with
  | some v => i.name ++ "==" ++ v
  | none => i.name

/-- Helper for `from_str`: split a character list at the first `==`
separator, returning the name part (accumulated in reverse) and the
remainder. -/
def splitIdAux : List Char → List Char → Option (List Char × List Char)
  | _, [] => none
  | acc, '=' :: '=' :: rest => some (acc.reverse, rest)
  | acc, c :: rest => splitIdAux (c :: acc) rest

/-- Modelled from the spec: parse the canonical `name[==version]` string
form back into the pair — the version is the part after the `==`
separator when one occurs, and absent otherwise. -/
def from_str (s : String) : ComponentIdentifier :=
  match splitIdAux [] s.toList with
  | some nv => ⟨String.mk nv.1, some (String.mk nv.2)⟩
  | none => ⟨s, none⟩

end ComponentIdentifier

/-! ## Component instantiation (`Component.get_instance` / `_get_instance`) -/

/-- A component dependency graph: component name mapped to the ordered
`(attribute name, dependency component name)` pairs of its
`self.dependencies` dict.  A name absent from the dict has no
dependencies.  Dependency edges in `component.py` point at Component
objects; within one graph the instantiation memoization keys them by
`self.name`, so names identify components here. -/
structure ComponentGraph where
  deps : Dict (List (String × String))

/-- Embeds `component.dependencies` lookup for a named component. -/
def depsOf (g : ComponentGraph) (name : String) : List (String × String) :=
  (dictGet g.deps name).getD []

/-- Instrumented state of one `get_instance` call tree.  `instantiated`
is the memoization dict of `_get_instance` (component name to instance).
Instances are identified by allocation order (`nextId` is the next fresh
identity, standing for a distinct Python object id).  `attrs` logs every
`setattr(instance, dep_attr_name, dep_instance)` and `allocated` logs
every bare allocation `self._managed_cls()`, most recent first. -/
structure InstState where
  nextId : Nat := 0
  instantiated : Dict Nat := []
  attrs : List (Nat × String × Nat) := []
  allocated : List (Nat × String) := []
deriving DecidableEq, Repr

/-- Outcome of a fuelled `_get_instance` call: a normal return of the
instance together with the state, a propagating Python exception, or
exhaustion of the recursion budget (Python raises `RecursionError` once
the interpreter recursion limit is hit). -/
inductive InstResult where
  | ok : Nat → InstState → InstResult
  | exn : String → InstResult
  | fuelOut : InstResult
deriving DecidableEq, Repr

/-- Embeds `Component._get_instance(self, params, instantiated)` with an
explicit recursion budget.  Following the source order: return the memo
entry if `self.name in instantiated`; otherwise allocate the managed
object with `__init__` patched out, recurse into each dependency in
order and attach the result under its attribute name, call the real
`__init__` through `call_function_with_param_set` (which fetches
`params.get_function_params(self.name, "__init__")` and can raise), and
only then record the instance in `instantiated`. -/
def getInstanceAux (g : ComponentGraph) :
    (fuel : Nat) → String → ParameterSet → InstState → InstResult
  | 0, _, _, _ => InstResult.fuelOut
  | fuel + 1, name, params, st =>
    match dictGet st.instantiated name with
    | some i => InstResult.ok i st
    | none =>
      let i := st.nextId
      let st1 : InstState :=
        { st with nextId := i + 1, allocated := (i, name) :: st.allocated }
      let depsRes :=
        (depsOf g name).foldl
          (fun acc ad =>
            match acc with
            | InstResult.ok _ stAcc =>
              match getInstanceAux g fuel ad.2 params stAcc with
              | InstResult.ok depId st' =>
                InstResult.ok i { st' with attrs := (i, ad.1, depId) :: st'.attrs }
              | r => r
            | r => r)
          (InstResult.ok i st1)
      match depsRes with
      | InstResult.ok _ st2 =>
        match params.get_function_params name "__init__" with
        | Except.error m => InstResult.exn m
        | Except.ok _ =>
          InstResult.ok i { st2 with instantiated := dictSet st2.instantiated name i }
      | r => r

/-- Embeds `Component.get_instance(self, params)`: a fresh, call-local
`instantiated = {}` memoization dict is created and `_get_instance` is
invoked on it.  `params = params if params else ParameterSet({})`: a
ParameterSet object defines no truthiness hooks, so any object passes
through and only an absent argument is replaced by `ParameterSet({})`. -/
def Component.get_instance (g : ComponentGraph) (fuel : Nat) (name : String)
    (params : Option ParameterSet) : InstResult :=
  let params := params.getD (ParameterSet.init (some []))
  getInstanceAux g fuel name params {}

/-! ## Registry lookup (`agentos/registry.py`) -/

/-- Embeds Python `str(x)` for an optional string (`str(None)` is the
text `None`), as used by the f-string in the zero-match error. -/
def pyStrOpt (o : Option String) : String := o.getD "None"

/-- Embeds `str.join`: `pyJoin sep [a, b, c] = a ++ sep ++ b ++ sep ++ c`. -/
def pyJoin (sep : String) : List String → String
  | [] => ""
  | [s] => s
  | s :: rest => s ++ sep ++ pyJoin sep rest

/-- Helper for the ambiguity branch: `"\n - ".join(versions)` requires
every version to be a string; a `None` version raises a `TypeError`
inside `join`, observed here as `none`. -/
def sequenceVersions : List (Option String) → Option (List String)
  | [] => some []
  | none :: _ => none
  | some v :: rest => (sequenceVersions rest).map (v :: ·)

/-- Embeds `InMemoryRegistry.get_component_specs`: when a filter is
given, keep exactly the entries whose key, parsed as an identifier,
matches the name filter and the version filter. -/
def get_component_specs (components : Dict (Dict Val))
    (filter_by_name : Option String) (filter_by_version : Option String) :
    Dict (Dict Val) :=
  if filter_by_name.isSome || filter_by_version.isSome then
    components.filter (fun kv =>
      let candidate_id := ComponentIdentifier.from_str kv.1
      (match filter_by_name with
       | some n => decide (candidate_id.name = n)
       | none => true) &&
      (match filter_by_version with
       | some v => decide (candidate_id.version = some v)
       | none => true))
  else components

/-- The zero-match error message of `Registry.get_component_spec`
(filter criteria are named in the message). -/
def no_match_error_msg (name : String) (version : Option String) : String :=
  "This registry does not contain any components that match your filter criteria: name:" ++
    name ++ ", version:" ++ pyStrOpt version ++ "."

/-- The ambiguity error message of `Registry.get_component_spec`
(available versions are enumerated in the message). -/
def ambiguity_error_msg (name : String) (version_str : String) : String :=
  "This registry contains more than one component with the name " ++ name ++
    ". Please specify one of the following versions:\n - " ++ version_str

/-- Result of `Registry.get_component_spec`: a flat properties dict
(identifier folded in as `name` and `version` entries) or the nested
one-entry mapping from identifier string to properties. -/
inductive ComponentSpecResult where
  | flat : Dict Val → ComponentSpecResult
  | nested : Dict (Dict Val) → ComponentSpecResult
deriving DecidableEq, Repr

/-- Embeds `Registry.get_component_spec(name, version, flattened)`:
filter the components table; zero matches raise a `LookupError` naming
the filters; more than one match raises a `LookupError` listing the
available versions; exactly one match is returned, flattened on demand
(`popitem()` takes the most recently inserted entry and the identifier
fields are folded into the properties dict). -/
def Registry.get_component_spec (components : Dict (Dict Val)) (name : String)
    (version : Option String) (flattened : Bool) : Except String ComponentSpecResult :=
  let comps := get_component_specs components (some name) version
  if comps.length = 0 then
    Except.error (no_match_error_msg name version)
  else if comps.length > 1 then
    match sequenceVersions
        (comps.map (fun kv => (ComponentIdentifier.from_str kv.1).version)) with
    | some versions => Except.error (ambiguity_error_msg name (pyJoin "\n - " versions))
    | none => Except.error "TypeError: sequence item: expected str instance, NoneType found"
  else if flattened then
    match comps.getLast? with
    | some kv =>
      let identifier := ComponentIdentifier.from_str kv.1
      let flat_component_dict := dictSet kv.2 "name" (Val.vStr identifier.name)
      let flat_component_dict := dictSet flat_component_dict "version"
        (match identifier.version with
         | some v => Val.vStr v
         | none => Val.vNone)
      Except.ok (ComponentSpecResult.flat flat_component_dict)
    | none => Except.error "unreachable: the zero-match branch already raised"
  else
    Except.ok (ComponentSpecResult.nested comps)

/-! ## RunCommand (`agentos/run_command.py`) -/

/-- A ParameterSet object as seen by the interpreter: its contents plus
its object identity.  `ParameterSet` defines no `__str__` or `__repr__`,
so `str(parameter_set)` falls back to the default object repr, which
renders the class name together with the memory address; `addr` stands
for that address, distinct for distinct simultaneously-live objects. -/
structure PSObject where
  addr : Nat
  params : ParameterSet
deriving DecidableEq, Repr

/-- Embeds `str(parameter_set)` for a ParameterSet object: the default
`object.__repr__` text, a function of the object identity only. -/
def PSObject.py_str (ps : PSObject) : String :=
  "<agentos.parameter_set.ParameterSet object at 0x" ++ toString ps.addr ++ ">"

/-- Embeds the fields of a `RunCommand` that `__hash__`, `__eq__` and
`to_spec` read: the component (through its identifier), the entry
point name and the parameter set object. -/
structure RunCommand where
  component_identifier : ComponentIdentifier
  entry_point : String
  parameter_set : PSObject
deriving DecidableEq, Repr

namespace RunCommand

/-- Embeds the string handed to `hash` by `RunCommand.__hash__`:
`self.component.identifier.full + self.entry_point +
str(self.parameter_set)`. -/
def hash_input (rc : RunCommand) : String :=
  rc.component_identifier.full ++ rc.entry_point ++ rc.parameter_set.py_str

/-- Embeds `RunCommand.__hash__`, parameterized by the interpreter
string-hash function `h`. -/
def py_hash {α : Type} (h : String → α) (rc : RunCommand) : α := h rc.hash_input

/-- Embeds `RunCommand.__eq__` between two RunCommand objects:
`hash(self) == hash(other)`. -/
def py_eq {α : Type} [DecidableEq α] (h : String → α) (a b : RunCommand) : Bool :=
  decide (py_hash h a = py_hash h b)

/-- The inner properties dict built by `RunCommand.to_spec`:
component id, entry point, and the parameter set spec
(`self._parameter_set.to_spec()` deep-copies the stored contents). -/
structure SpecInner where
  component_id : ComponentIdentifier
  entry_point : String
  parameter_set : ParameterSet
deriving DecidableEq, Repr

/-- The nested form `{self.identifier: inner}` of a RunCommand spec;
`α` is the type of the identifier (the Python hash value). -/
inductive SpecForm (α : Type) where
  | nested : α → SpecInner → SpecForm α
deriving DecidableEq, Repr

/-- Embeds `RunCommand.to_spec(flatten)`.  The flattening branch is
`return inner.update({RunCommandSpec.identifier_key: self.identifier})`:
`dict.update` mutates `inner` and returns `None`, so the method returns
`None` (here `none`) whenever `flatten` is true; the nested branch
returns `{self.identifier: inner}`. -/
def to_spec {α : Type} (h : String → α) (rc : RunCommand) (flatten : Bool) :
    Option (SpecForm α) :=
  let inner : SpecInner :=
    ⟨rc.component_identifier, rc.entry_point, rc.parameter_set.params⟩
  if flatten then none
  else some (SpecForm.nested (py_hash h rc) inner)

end RunCommand

/-! ## Repo git-state checks (`agentos/repo.py`) -/

/-- Helper: does `needle` occur at the start of `hay`? -/
def charListStart : List Char → List Char → Bool
  | [], _ => true
  | _ :: _, [] => false
  | a :: as, b :: bs => a = b && charListStart as bs

/-- Helper: does `needle` occur anywhere in `hay`? -/
def charListHasSub (needle : List Char) : List Char → Bool
  | [] => needle.isEmpty
  | c :: rest => charListStart needle (c :: rest) || charListHasSub needle rest

/-- Embeds the Python substring test `sub in s`. -/
def strContains (s sub : String) : Bool :=
  charListHasSub sub.toList s.toList

/-- Abstract state of the git repository that backs a component, as
observed through the dulwich calls in `repo.py`.  `remote` is the result
of `porcelain.get_remote_repo`: `none` embeds the `IndexError` raised
when no remote is configured, otherwise the remote name and its
(possibly `None`) URL.  `remoteRefs` is the refs dict
(`refs/remotes/<remote>/<branch>` to commit hash), `headHash` the local
head commit. -/
structure GitState where
  pathExists : Bool
  isGitRepo : Bool
  remote : Option (String × Option String)
  uncommittedChanges : Bool
  branch : String
  remoteRefs : Dict String
  headHash : String
deriving DecidableEq, Repr

/-- Embeds `Repo._check_for_local_changes(force)`: uncommitted staged or
unstaged changes are fatal, downgraded to a printed warning when `force`
is set.  Returns the warnings printed. -/
def check_for_local_changes (gs : GitState) (force : Bool) :
    Except String (List String) :=
  if gs.uncommittedChanges then
    if force then Except.ok ["Warning: Commit all changes before freezing"]
    else Except.error "Commit all changes before freezing"
  else Except.ok []

/-- Embeds `Repo._check_for_github_url(force)`.  `url` starts as the
sentinel `unknown_url`; a missing remote (`IndexError`) is fatal unless
forced, and a `None` or non-GitHub URL is fatal unless forced.  In the
missing-remote force path the sentinel `unknown_url` then also fails the
`github.com` containment test, producing a second warning.  Returns the
resulting URL (possibly `None`) and the warnings printed. -/
def check_for_github_url (gs : GitState) (force : Bool) :
    Except String (Option String × List String) := do
  let (url, w1) ←
    match gs.remote with
    | none =>
      if force then pure ((some "unknown_url" : Option String), ["Warning: Could not find remote repo"])
      else Except.error "Could not find remote repo"
    | some ru => pure (ru.2, ([] : List String))
  if url.isNone || !(strContains (url.getD "") "github.com") then
    if force then
      return (url, w1 ++ ["Warning: Remote must be on github, not " ++ pyStrOpt url])
    else Except.error ("Remote must be on github, not " ++ pyStrOpt url)
  else
    return (url, w1)

/-- Embeds `Repo._check_remote_branch_status(force)`: a missing remote
yields the sentinel `unknown_version` under force and is fatal
otherwise; a local head that differs from the recorded remote branch
head (including an absent remote ref) is fatal unless forced.  Returns
the local head hash and the warnings printed. -/
def check_remote_branch_status (gs : GitState) (force : Bool) :
    Except String (String × List String) :=
  match gs.remote with
  | none =>
    if force then Except.ok ("unknown_version", ["Warning: Unable to get remote repo"])
    else Except.error "Unable to get remote repo"
  | some ru =>
    let full_id := "refs/remotes/" ++ ru.1 ++ "/" ++ gs.branch
    let curr_remote_hash := dictGet gs.remoteRefs full_id
    let curr_head_hash := gs.headHash
    if curr_remote_hash ≠ some curr_head_hash then
      if force then
        Except.ok (curr_head_hash,
          ["Warning: Push your changes to " ++ ru.1 ++ "/" ++ gs.branch ++ " before freezing"])
      else Except.error ("Push your changes to " ++ ru.1 ++ "/" ++ gs.branch ++ " before freezing")
    else Except.ok (curr_head_hash, [])

/-- Embeds `Repo.get_version_from_git(identifier, file_path, force)`:
assert the file path exists, discover the enclosing git repository
(`NotGitRepository` raises a `BadGitStateException` on *every* path,
`force` included), then run the three state checks in source order.
Returns the `(url, head hash)` pair together with all warnings
printed. -/
def get_version_from_git (gs : GitState) (force : Bool) :
    Except String ((Option String × String) × List String) := do
  if !gs.pathExists then
    Except.error "AssertionError: Path does not exist"
  else if !gs.isGitRepo then
    Except.error "No git repo with Component found"
  else do
    let w1 ← check_for_local_changes gs force
    let (url, w2) ← check_for_github_url gs force
    let (head, w3) ← check_remote_branch_status gs force
    return ((url, head), w1 ++ w2 ++ w3)

/-! ## Component.run (`agentos/component.py`) -/

/-- Oracles for the three fallible steps of `Component.run`: whether
`get_instance`, the entry-point call, and `run.log_return_value` raise
when reached. -/
structure RunStepFlags where
  instantiate_raises : Bool
  entry_point_raises : Bool
  log_return_value_raises : Bool
deriving DecidableEq, Repr

/-- Outcome of one `Component.run` call: normal completion returning the
Run, the failed entry assertion (a second run while one is active), or a
propagating exception from one of the steps. -/
inductive RunOutcome where
  | ok : Nat → RunOutcome
  | assertion_error : String → RunOutcome
  | exn : String → RunOutcome
deriving DecidableEq, Repr

/-- Embeds `Component.run` as a transition on the `active_run` field:
assert `not self.active_run`; set `active_run` to the new Run; build the
instance, call the entry point, optionally log the return value (each
step may raise, and no cleanup handler exists on those paths); finally
clear `active_run` and return the Run.  The result pairs the outcome
with the `active_run` value after the call. -/
def Component.run (active_run : Option Nat) (new_run_id : Nat)
    (steps : RunStepFlags) (log_return_value : Bool) : RunOutcome × Option Nat :=
  if active_run.isSome then
    (RunOutcome.assertion_error
      "Component already has an active_run, so a new run is not allowed.",
     active_run)
  else
    let active := some new_run_id
    if steps.instantiate_raises then
      (RunOutcome.exn "exception raised inside get_instance", active)
    else if steps.entry_point_raises then
      (RunOutcome.exn "exception raised by the entry point call", active)
    else if log_return_value && steps.log_return_value_raises then
      (RunOutcome.exn "exception raised while logging the return value", active)
    else
      (RunOutcome.ok new_run_id, none)

/-! ## Theorems -/

/-- The two-component cyclic graph of claim C1: component `A` depends on
`B` (attribute `b`) and `B` depends on `A` (attribute `a`). -/
def gCycle : ComponentGraph := ⟨[("A", [("b", "B")]), ("B", [("a", "A")])]⟩

/-- The diamond dependency graph of claim C2: `a` depends on `b` and
`c`, which both depend on the shared component `d`. -/
def diamondGraph (a b c d ab ac bd cd : String) : ComponentGraph :=
  ⟨[(a, [(ab, b), (ac, c)]), (b, [(bd, d)]), (c, [(cd, d)])]⟩

/-- Key invariant behind claim C1: as long as neither `A` nor `B` has
been memoized, `_get_instance` on either component of the cyclic graph
exhausts every recursion budget — the memoization entry is written only
after all dependencies have been instantiated, so the cycle recurses
before any entry appears. -/
theorem cycle_aux : ∀ (fuel : Nat) (st : InstState) (ps : ParameterSet),
    dictGet st.instantiated "A" = none → dictGet st.instantiated "B" = none →
    getInstanceAux gCycle fuel "A" ps st = InstResult.fuelOut ∧
    getInstanceAux gCycle fuel "B" ps st = InstResult.fuelOut := by
  intro fuel
  induction fuel with
  | zero => exact fun st ps _ _ => ⟨rfl, rfl⟩
  | succ n ih =>
    intro st ps hA hB
    refine ⟨?_, ?_⟩
    · have hB' :=
        (ih { st with nextId := st.nextId + 1,
                      allocated := (st.nextId, "A") :: st.allocated } ps hA hB).2
      simp only [gCycle] at hB'
      simp [getInstanceAux, gCycle, depsOf, dictGet, hA, hB']
    · have hA' :=
        (ih { st with nextId := st.nextId + 1,
                      allocated := (st.nextId, "B") :: st.allocated } ps hA hB).1
      simp only [gCycle] at hA'
      simp [getInstanceAux, gCycle, depsOf, dictGet, hB, hA']

/-- Claim C1 (amended): on the cyclic graph `A -> B -> A`,
`get_instance` never returns and never raises an explicit error of any
kind — for every recursion budget and every parameter argument the call
is still recursing when the budget runs out (in Python the interpreter
recursion limit is eventually hit, a `RecursionError`).  No
`no component ready to initialize`-style error is produced by
`Component._get_instance`; that message exists only in the separate
config-file loader of `cli.py`. -/
theorem c1_cycle_unbounded_recursion (fuel : Nat) (params : Option ParameterSet) :
    Component.get_instance gCycle fuel "A" params = InstResult.fuelOut :=
  (cycle_aux fuel {} _ rfl rfl).1

/-- Claim C1, counterexample to the claim as stated: with a recursion
budget of 1000 (the default CPython recursion limit) the call on the
cyclic graph has neither produced an instance nor raised an explicit
`no component ready to initialize` error — it is still recursing, so in
Python it dies with `RecursionError`, contradicting the claimed explicit
failure. -/
theorem c1_cycle_counterexample :
    Component.get_instance gCycle 1000 "A"
      (some (ParameterSet.map [("A", [("__init__", [("x", Val.vInt 1)])])])) =
      InstResult.fuelOut := by
  have h : ∀ (fuel : Nat) (p : Option ParameterSet),
      Component.get_instance gCycle fuel "A" p =
        getInstanceAux gCycle fuel "A" (p.getD (ParameterSet.init (some []))) {} :=
    fun _ _ => rfl
  rw [h]
  exact (cycle_aux 1000 {}
    (ParameterSet.map [("A", [("__init__", [("x", Val.vInt 1)])])]) rfl rfl).1

/-- Claim C2: in every diamond-shaped component graph (distinct
component names, `b` and `c` both depending on `d`), one `get_instance`
call on the root — whose memoization dict is created fresh inside
`get_instance` and is keyed by component name — allocates exactly one
instance of `d`, and the dependency attribute attached to the instance
of `b` and the one attached to the instance of `c` are the identical
object. -/
theorem c2_diamond_single_instantiation (a b c d ab ac bd cd : String)
    (m : Dict (Dict ParamDict))
    (hab : a ≠ b) (hac : a ≠ c) (had : a ≠ d)
    (hbc : b ≠ c) (hbd : b ≠ d) (hcd : c ≠ d) (_hattr : ab ≠ ac) :
    ∃ (st : InstState) (rootId idB idC idD : Nat),
      Component.get_instance (diamondGraph a b c d ab ac bd cd) 4 a
          (some (ParameterSet.map m)) = InstResult.ok rootId st ∧
      (st.allocated.filter (fun p => decide (p.2 = d))).length = 1 ∧
      dictGet st.instantiated b = some idB ∧
      dictGet st.instantiated c = some idC ∧
      dictGet st.instantiated d = some idD ∧
      (idB, bd, idD) ∈ st.attrs ∧
      (idC, cd, idD) ∈ st.attrs := by
  have hba := hab.symm
  have hca := hac.symm
  have hda := had.symm
  have hcb := hbc.symm
  have hdb := hbd.symm
  have hdc := hcd.symm
  refine ⟨{ nextId := 4,
            instantiated := [(d, 2), (b, 1), (c, 3), (a, 0)],
            attrs := [(0, ac, 3), (3, cd, 2), (0, ab, 1), (1, bd, 2)],
            allocated := [(3, c), (2, d), (1, b), (0, a)] },
          0, 1, 3, 2, ?_, ?_, ?_, ?_, ?_, ?_, ?_⟩
  · simp [Component.get_instance, getInstanceAux, diamondGraph, depsOf, dictGet, dictSet,
      ParameterSet.get_function_params, ParameterSet.get_component_params,
      hab, hac, had, hbc, hbd, hcd, hba, hca, hda, hcb, hdb, hdc]
  · simp [hcd, hbd, had]
  · simp [dictGet, hdb, hcb]
  · simp [dictGet, hdc, hbc]
  · simp [dictGet]
  · simp
  · simp

/-- Witness for claim C2: the diamond theorem applied to the concrete
graph `A -> {B, C} -> D` with a concrete parameter set. -/
theorem c2_diamond_single_instantiation_witness :
    ∃ (st : InstState) (rootId idB idC idD : Nat),
      Component.get_instance (diamondGraph "A" "B" "C" "D" "envB" "envC" "dep" "dep") 4 "A"
          (some (ParameterSet.map [("A", [("__init__", [("x", Val.vInt 1)])])])) =
        InstResult.ok rootId st ∧
      (st.allocated.filter (fun p => decide (p.2 = "D"))).length = 1 ∧
      dictGet st.instantiated "B" = some idB ∧
      dictGet st.instantiated "C" = some idC ∧
      dictGet st.instantiated "D" = some idD ∧
      (idB, "dep", idD) ∈ st.attrs ∧
      (idC, "dep", idD) ∈ st.attrs :=
  c2_diamond_single_instantiation "A" "B" "C" "D" "envB" "envC" "dep" "dep"
    [("A", [("__init__", [("x", Val.vInt 1)])])]
    (by decide) (by decide) (by decide) (by decide) (by decide) (by decide) (by decide)

/-- Claim C3: evaluation of `get_function_params` at the failing and the
specified inputs.  A `ParameterSet` built with no parameters or with an
empty mapping stores the `Map` class object in `_parameters`, so
`get_function_params` raises a `TypeError` instead of returning the
empty mapping that the claim expects — and that the repository test
`test_component_repl_demo`, which calls `run` with no params, relies on;
on a nonempty set the present pair returns the inner dict and absent
pairs return empty mappings. -/
theorem c3_get_function_params_behavior :
    (∃ msg, ParameterSet.get_function_params (ParameterSet.init none) "C" "f" =
      Except.error msg) ∧
    (∃ msg, ParameterSet.get_function_params (ParameterSet.init (some [])) "C" "f" =
      Except.error msg) ∧
    ParameterSet.get_function_params
      (ParameterSet.init (some [("C", [("f", [("x", Val.vInt 1)])])])) "C" "f" =
      Except.ok [("x", Val.vInt 1)] ∧
    ParameterSet.get_function_params
      (ParameterSet.init (some [("C", [("f", [("x", Val.vInt 1)])])])) "D" "g" =
      Except.ok [] ∧
    ParameterSet.get_function_params
      (ParameterSet.init (some [("C", [("f", [("x", Val.vInt 1)])])])) "C" "g" =
      Except.ok [] :=
  ⟨⟨_, rfl⟩, ⟨_, rfl⟩, rfl, rfl, rfl⟩

/-- Claim C4, counterexample to the claim as stated: `update` does not
leave the original ParameterSet observable state intact — after
`update("C", "f", {x: 2})` on a set holding `{C: {f: {x: 1}}}` the same
object reports `{x: 2}` from `get_function_params`, not the pre-update
`{x: 1}` (and the method returns `None` rather than any new
ParameterSet). -/
theorem c4_update_mutates_counterexample :
    ParameterSet.update (ParameterSet.map [("C", [("f", [("x", Val.vInt 1)])])])
        "C" "f" [("x", Val.vInt 2)] =
      Except.ok (ParameterSet.map [("C", [("f", [("x", Val.vInt 2)])])]) ∧
    ParameterSet.get_function_params
        (ParameterSet.map [("C", [("f", [("x", Val.vInt 2)])])]) "C" "f" ≠
      ParameterSet.get_function_params
        (ParameterSet.map [("C", [("f", [("x", Val.vInt 1)])])]) "C" "f" := by
  refine ⟨rfl, fun h => ?_⟩
  simp [ParameterSet.get_function_params, ParameterSet.get_component_params,
    dictGet] at h

/-- Lemma: writing a key and reading it back yields the written value. -/
theorem dictGet_dictSet_self {α : Type} (d : Dict α) (k : String) (v : α) :
    dictGet (dictSet d k v) k = some v := by
  induction d with
  | nil => simp [dictSet, dictGet]
  | cons kv rest ih =>
    by_cases h : kv.1 = k
    · simp [dictSet, dictGet, h]
    · simp [dictSet, dictGet, h, ih]

/-- Claim C4 (amended): `update(component, fn, params)` mutates the
ParameterSet in place — it returns `None` after reassigning
`self._parameters` — and afterwards `get_function_params` on that same
object returns the previous function params merged with the update;
no unmutated copy of the original state survives on the object. -/
theorem c4_update_in_place (m : Dict (Dict ParamDict)) (c f : String) (q : ParamDict) :
    ∃ ps', ParameterSet.update (ParameterSet.map m) c f q = Except.ok ps' ∧
      ParameterSet.get_function_params ps' c f =
        Except.ok (dictUpdate ((dictGet ((dictGet m c).getD []) f).getD []) q) := by
  refine ⟨_, rfl, ?_⟩
  simp [ParameterSet.get_function_params, ParameterSet.get_component_params,
    dictGet_dictSet_self]

/-- Claim C9: `ParameterSet.__eq__` takes the isinstance branch for any
two ParameterSet operands and returns `True` without reading
`_parameters`, so all ParameterSets — however different their stored
mappings — compare equal. -/
theorem c9_parameter_set_eq_ignores_contents (p q : ParameterSet) :
    ParameterSet.py_eq p q = true := rfl

/-- Claim C5, counterexample to the claim as stated: two RunCommands
built from the same component identifier, the same entry point, and two
ParameterSet objects with identical contents but distinct object
identities feed different strings to `hash` — `str(parameter_set)` is
the default object repr, which renders the memory address — so their
identities are not equal. -/
theorem c5_identity_counterexample :
    (RunCommand.mk ⟨"agent", some "1"⟩ "run"
        ⟨1, ParameterSet.map [("agent", [("run", [("x", Val.vInt 1)])])]⟩).component_identifier =
      (RunCommand.mk ⟨"agent", some "1"⟩ "run"
        ⟨2, ParameterSet.map [("agent", [("run", [("x", Val.vInt 1)])])]⟩).component_identifier ∧
    (RunCommand.mk ⟨"agent", some "1"⟩ "run"
        ⟨1, ParameterSet.map [("agent", [("run", [("x", Val.vInt 1)])])]⟩).entry_point =
      (RunCommand.mk ⟨"agent", some "1"⟩ "run"
        ⟨2, ParameterSet.map [("agent", [("run", [("x", Val.vInt 1)])])]⟩).entry_point ∧
    (RunCommand.mk ⟨"agent", some "1"⟩ "run"
        ⟨1, ParameterSet.map [("agent", [("run", [("x", Val.vInt 1)])])]⟩).parameter_set.params =
      (RunCommand.mk ⟨"agent", some "1"⟩ "run"
        ⟨2, ParameterSet.map [("agent", [("run", [("x", Val.vInt 1)])])]⟩).parameter_set.params ∧
    RunCommand.hash_input
        (RunCommand.mk ⟨"agent", some "1"⟩ "run"
          ⟨1, ParameterSet.map [("agent", [("run", [("x", Val.vInt 1)])])]⟩) ≠
      RunCommand.hash_input
        (RunCommand.mk ⟨"agent", some "1"⟩ "run"
          ⟨2, ParameterSet.map [("agent", [("run", [("x", Val.vInt 1)])])]⟩) := by
  refine ⟨rfl, rfl, rfl, ?_⟩
  decide

/-- Claim C5 (amended): RunCommand identity is taken over the string
`component.identifier.full + entry_point + str(parameter_set)`; since
ParameterSet defines no `__str__`, the last summand is the default
object repr of the parameter set object.  Under any injective
interpreter hash, `__eq__` therefore holds exactly when those input
strings coincide — content-addressed in the component identifier and
entry point but object-addressed in the parameter set. -/
theorem c5_eq_iff_same_hash_input {α : Type} [DecidableEq α] (h : String → α)
    (hinj : Function.Injective h) (a b : RunCommand) :
    RunCommand.py_eq h a b = true ↔
      RunCommand.hash_input a = RunCommand.hash_input b := by
  simp only [RunCommand.py_eq, RunCommand.py_hash, decide_eq_true_eq]
  exact ⟨fun hh => hinj hh, fun hh => congrArg h hh⟩

/-- Witness for claim C5: the identity hash function is injective, and
the equality test for two concrete RunCommands sharing one ParameterSet
object reduces to equality of their hash inputs. -/
theorem c5_eq_iff_same_hash_input_witness :
    RunCommand.py_eq (fun s => s)
        (RunCommand.mk ⟨"agent", some "1"⟩ "run" ⟨1, ParameterSet.mapClass⟩)
        (RunCommand.mk ⟨"agent", some "1"⟩ "run" ⟨1, ParameterSet.mapClass⟩) = true ↔
      RunCommand.hash_input
          (RunCommand.mk ⟨"agent", some "1"⟩ "run" ⟨1, ParameterSet.mapClass⟩) =
        RunCommand.hash_input
          (RunCommand.mk ⟨"agent", some "1"⟩ "run" ⟨1, ParameterSet.mapClass⟩) :=
  c5_eq_iff_same_hash_input (fun s => s) (fun _ _ hh => hh) _ _

/-- Claim C6: on a registry holding exactly the components `X==1` and
`X==2` (with arbitrary property dicts), `get_component_spec` with no
version raises a lookup error listing both available versions; asking
for version 1 returns exactly the version-1 spec; and any filter pair
matching zero entries raises a lookup error naming the filters used. -/
theorem c6_registry_lookup (v1 v2 : Dict Val) (flattened : Bool)
    (n : String) (v : Option String) :
    Registry.get_component_spec [("X==1", v1), ("X==2", v2)] "X" none flattened =
      Except.error (ambiguity_error_msg "X" (pyJoin "\n - " ["1", "2"])) ∧
    Registry.get_component_spec [("X==1", v1), ("X==2", v2)] "X" (some "1") false =
      Except.ok (ComponentSpecResult.nested [("X==1", v1)]) ∧
    (get_component_specs [("X==1", v1), ("X==2", v2)] (some n) v = [] →
      Registry.get_component_spec [("X==1", v1), ("X==2", v2)] n v flattened =
        Except.error (no_match_error_msg n v)) := by
  refine ⟨rfl, rfl, fun h => ?_⟩
  simp only [Registry.get_component_spec, h]
  rfl

/-- Witness for claim C6 at concrete property dicts and filters. -/
theorem c6_registry_lookup_witness :
    Registry.get_component_spec
        [("X==1", [("class_name", Val.vStr "Agent1")]),
         ("X==2", [("class_name", Val.vStr "Agent2")])] "Y" (some "3") true =
      Except.error (no_match_error_msg "Y" (some "3")) ∧
    Registry.get_component_spec
        [("X==1", [("class_name", Val.vStr "Agent1")]),
         ("X==2", [("class_name", Val.vStr "Agent2")])] "X" none true =
      Except.error (ambiguity_error_msg "X" (pyJoin "\n - " ["1", "2"])) :=
  ⟨(c6_registry_lookup [("class_name", Val.vStr "Agent1")]
      [("class_name", Val.vStr "Agent2")] true "Y" (some "3")).2.2 rfl,
   (c6_registry_lookup [("class_name", Val.vStr "Agent1")]
      [("class_name", Val.vStr "Agent2")] true "Y" (some "3")).1⟩

/-- Claim C7: evaluation of `RunCommand.to_spec` at both flags.  The
flat form is requested with `flatten=True`, but the branch reads
`return inner.update({identifier_key: self.identifier})` and
`dict.update` returns `None`, so the method yields `None` instead of the
flat spec — the sibling implementations (`Component.to_spec`,
`GitHubRepo.to_spec`) update and then return the dict, showing the
intended behavior. -/
theorem c7_run_command_to_spec_flatten_returns_none :
    RunCommand.to_spec (fun s => s)
        (RunCommand.mk ⟨"agent", some "1"⟩ "run"
          ⟨1, ParameterSet.map [("agent", [("run", [("x", Val.vInt 1)])])]⟩) true =
      none ∧
    RunCommand.to_spec (fun s => s)
        (RunCommand.mk ⟨"agent", some "1"⟩ "run"
          ⟨1, ParameterSet.map [("agent", [("run", [("x", Val.vInt 1)])])]⟩) false =
      some (RunCommand.SpecForm.nested
        (RunCommand.py_hash (fun s => s)
          (RunCommand.mk ⟨"agent", some "1"⟩ "run"
            ⟨1, ParameterSet.map [("agent", [("run", [("x", Val.vInt 1)])])]⟩))
        ⟨⟨"agent", some "1"⟩, "run",
          ParameterSet.map [("agent", [("run", [("x", Val.vInt 1)])])]⟩) :=
  ⟨rfl, rfl⟩

/-- Claim C8, counterexample to the claim as stated: a component file
that is not inside a git repository aborts freezing with
`BadGitStateException` even when the override flag is set — the
`NotGitRepository` handler raises unconditionally (the docstring of
`get_version_from_git` itself says only checks 2, 3 and 4 are ignored
under force), so not every repo-state problem is downgradable to a
warning. -/
theorem c8_force_counterexample :
    get_version_from_git
      { pathExists := true, isGitRepo := false,
        remote := some ("origin", some "https://github.com/org/proj"),
        uncommittedChanges := false, branch := "main",
        remoteRefs := [("refs/remotes/origin/main", "abc")], headHash := "abc" }
      true = Except.error "No git repo with Component found" := rfl

/-- Claim C8 (amended): with the override flag off, each repo-state
problem — not a git repo, missing or non-GitHub remote, uncommitted
local changes, local/remote branch divergence — aborts
`get_version_from_git` with its descriptive error; with the override
flag on, the latter three are downgraded to printed warnings with
best-effort fallback values and the call succeeds, but the
not-a-git-repo problem still raises even under the override. -/
theorem c8_freeze_error_policy (gs : GitState) (hpath : gs.pathExists = true) :
    (gs.isGitRepo = true → ∃ r, get_version_from_git gs true = Except.ok r) ∧
    (∀ force, gs.isGitRepo = false →
      get_version_from_git gs force =
        Except.error "No git repo with Component found") ∧
    (gs.isGitRepo = true → gs.uncommittedChanges = true →
      get_version_from_git gs false =
        Except.error "Commit all changes before freezing") ∧
    (gs.isGitRepo = true → gs.uncommittedChanges = false → gs.remote = none →
      get_version_from_git gs false =
        Except.error "Could not find remote repo") ∧
    (∀ ru, gs.isGitRepo = true → gs.uncommittedChanges = false →
      gs.remote = some ru →
      (ru.2 = none ∨ strContains (ru.2.getD "") "github.com" = false) →
      get_version_from_git gs false =
        Except.error ("Remote must be on github, not " ++ pyStrOpt ru.2)) ∧
    (∀ ru, gs.isGitRepo = true → gs.uncommittedChanges = false →
      gs.remote = some ru →
      ¬(ru.2 = none ∨ strContains (ru.2.getD "") "github.com" = false) →
      dictGet gs.remoteRefs ("refs/remotes/" ++ ru.1 ++ "/" ++ gs.branch) ≠
        some gs.headHash →
      get_version_from_git gs false =
        Except.error
          ("Push your changes to " ++ ru.1 ++ "/" ++ gs.branch ++
            " before freezing")) := by
  refine ⟨?_, ?_, ?_, ?_, ?_, ?_⟩
  · intro hgit
    have h1 : ∃ w, check_for_local_changes gs true = Except.ok w := by
      unfold check_for_local_changes
      split <;> exact ⟨_, rfl⟩
    have h2 : ∃ r, check_for_github_url gs true = Except.ok r := by
      unfold check_for_github_url
      rcases gs.remote with _ | ru <;>
        simp [Bind.bind, Except.bind, Pure.pure, Except.pure] <;>
        split <;> simp
    have h3 : ∃ r, check_remote_branch_status gs true = Except.ok r := by
      unfold check_remote_branch_status
      split
      · exact ⟨_, rfl⟩
      · split <;> simp_all <;> split <;> simp_all
    obtain ⟨w1, h1⟩ := h1
    obtain ⟨r2, h2⟩ := h2
    obtain ⟨r3, h3⟩ := h3
    refine ⟨((r2.1, r3.1), w1 ++ (r2.2 ++ r3.2)), ?_⟩
    simp [get_version_from_git, hpath, hgit, h1, h2, h3, Bind.bind, Except.bind,
      Pure.pure, Except.pure]
  · intro force hgit
    simp [get_version_from_git, hpath, hgit]
  · intro hgit hdirty
    simp [get_version_from_git, hpath, hgit, check_for_local_changes, hdirty,
      Bind.bind, Except.bind]
  · intro hgit hclean hrem
    simp [get_version_from_git, hpath, hgit, check_for_local_changes, hclean,
      check_for_github_url, hrem, Bind.bind, Except.bind]
  · intro ru hgit hclean hrem hurl
    simp [get_version_from_git, hpath, hgit, check_for_local_changes, hclean,
      check_for_github_url, hrem, hurl, Bind.bind, Except.bind,
      Pure.pure, Except.pure]
  · intro ru hgit hclean hrem hurl hdiv
    simp [get_version_from_git, hpath, hgit, check_for_local_changes, hclean,
      check_for_github_url, check_remote_branch_status, hrem, hurl, hdiv,
      Bind.bind, Except.bind, Pure.pure, Except.pure]

/-- Witness for claim C8: the amended policy applied to a repository
with uncommitted changes (override succeeds, no-override raises) and to
a path that is not a git repository (raises even with the override). -/
theorem c8_freeze_error_policy_witness :
    (∃ r, get_version_from_git
      { pathExists := true, isGitRepo := true,
        remote := some ("origin", some "https://github.com/org/proj"),
        uncommittedChanges := true, branch := "main",
        remoteRefs := [("refs/remotes/origin/main", "abc")], headHash := "abc" }
      true = Except.ok r) ∧
    get_version_from_git
      { pathExists := true, isGitRepo := true,
        remote := some ("origin", some "https://github.com/org/proj"),
        uncommittedChanges := true, branch := "main",
        remoteRefs := [("refs/remotes/origin/main", "abc")], headHash := "abc" }
      false = Except.error "Commit all changes before freezing" ∧
    get_version_from_git
      { pathExists := true, isGitRepo := false,
        remote := some ("origin", some "https://github.com/org/proj"),
        uncommittedChanges := false, branch := "main",
        remoteRefs := [("refs/remotes/origin/main", "abc")], headHash := "abc" }
      false = Except.error "No git repo with Component found" :=
  ⟨(c8_freeze_error_policy
      { pathExists := true, isGitRepo := true,
        remote := some ("origin", some "https://github.com/org/proj"),
        uncommittedChanges := true, branch := "main",
        remoteRefs := [("refs/remotes/origin/main", "abc")], headHash := "abc" }
      rfl).1 rfl,
   (c8_freeze_error_policy
      { pathExists := true, isGitRepo := true,
        remote := some ("origin", some "https://github.com/org/proj"),
        uncommittedChanges := true, branch := "main",
        remoteRefs := [("refs/remotes/origin/main", "abc")], headHash := "abc" }
      rfl).2.2.1 rfl rfl,
   (c8_freeze_error_policy
      { pathExists := true, isGitRepo := false,
        remote := some ("origin", some "https://github.com/org/proj"),
        uncommittedChanges := false, branch := "main",
        remoteRefs := [("refs/remotes/origin/main", "abc")], headHash := "abc" }
      rfl).2.1 false rfl⟩

/-- Claim C10: when any step of `Component.run` after the active-run
assignment raises — instantiation, the entry-point call, or return-value
logging — the exception propagates with `active_run` still set to the
failed Run (there is no cleanup on the error path), and every subsequent
`run` call on the same Component is rejected by the single-active-run
assertion even though no run is executing. -/
theorem c10_active_run_leak (rid rid2 : Nat) (steps steps2 : RunStepFlags)
    (lrv lrv2 : Bool)
    (hfail : steps.instantiate_raises = true ∨ steps.entry_point_raises = true ∨
      (lrv = true ∧ steps.log_return_value_raises = true)) :
    (∃ msg, (Component.run none rid steps lrv).1 = RunOutcome.exn msg) ∧
    (Component.run none rid steps lrv).2 = some rid ∧
    (Component.run (Component.run none rid steps lrv).2 rid2 steps2 lrv2).1 =
      RunOutcome.assertion_error
        "Component already has an active_run, so a new run is not allowed." ∧
    (Component.run (Component.run none rid steps lrv).2 rid2 steps2 lrv2).2 =
      some rid := by
  obtain ⟨i, e, l⟩ := steps
  simp only at hfail
  cases i <;> cases e <;> cases l <;> cases lrv <;>
    simp_all [Component.run]

/-- Witness for claim C10: a concrete run whose entry point raises
leaves `active_run` set and blocks the next run. -/
theorem c10_active_run_leak_witness :
    (∃ msg, (Component.run none 7 ⟨false, true, false⟩ true).1 =
      RunOutcome.exn msg) ∧
    (Component.run none 7 ⟨false, true, false⟩ true).2 = some 7 ∧
    (Component.run (Component.run none 7 ⟨false, true, false⟩ true).2 8
      ⟨false, false, false⟩ true).1 =
      RunOutcome.assertion_error
        "Component already has an active_run, so a new run is not allowed." ∧
    (Component.run (Component.run none 7 ⟨false, true, false⟩ true).2 8
      ⟨false, false, false⟩ true).2 = some 7 :=
  c10_active_run_leak 7 8 ⟨false, true, false⟩ ⟨false, false, false⟩ true true
    (Or.inr (Or.inl rfl))
